import Mathlib

/-!
Verification development for the piston-perfect REST-handler toolkit
(`piston_perfect/handlers.py`, `piston_perfect/custom_filters.py`,
`piston_perfect/resource.py`).

The embedding is shallow: Python strings are lists of characters
(`Str`), data sets (Django querysets) are lists of records, response
envelopes are structures with a `data` entry and an optional `total`
entry, and Python exceptions that the source catches with a bare
`except:` are modelled as total fallback branches.
-/

/-- Python strings, modelled as lists of characters. -/
abbrev Str := List Char

/-- Prefix test: `startsWith n h` is true when `n` is a prefix of `h` (both read left
to right), mirroring the prefix test underlying Python's `in`. -/
def startsWith : Str → Str → Bool
  | [], _ => true
  | _ :: _, [] => false
  | a :: as, b :: bs => a == b && startsWith as bs

/-- Substring test: `hasSub n h` is true when `n` occurs as a contiguous substring of
`h`, mirroring Python's `n in h` on strings (and SQL `LIKE %n%`). -/
def hasSub (n : Str) : Str → Bool
  | [] => n.isEmpty
  | b :: bs => startsWith n (b :: bs) || hasSub n bs

/-- Lower-case every character, mirroring Python's `str.lower()`. -/
def lowerStr (s : Str) : Str := s.map Char.toLower

/-- Django's `field__icontains=term` lookup: case-insensitive substring
match of `term` inside the field value `hay`. -/
def icontains (hay term : Str) : Bool :=
  hasSub (lowerStr term) (lowerStr hay)

/-- Split a string at every character satisfying `p`, keeping empty
pieces, mirroring Python's `str.split(sep)` for a one-character `sep`
(when `p` tests for that character). -/
def splitP (p : Char → Bool) : Str → List Str
  | [] => [[]]
  | c :: cs =>
    if p c then [] :: splitP p cs
    else
      match splitP p cs with
      | [] => [[c]]
      | g :: gs => (c :: g) :: gs

/-- Python's `str.split(':')`: split at colons, keeping empty pieces. -/
def splitColon (s : Str) : List Str := splitP (· == ':') s

/-- Python's whitespace `str.split()`: split at whitespace and drop
empty pieces. -/
def pySplitWs (s : Str) : List Str :=
  (splitP Char.isWhitespace s).filter (· ≠ [])

/-- Value of a decimal digit character, `none` for non-digits. -/
def digitVal (c : Char) : Option Nat :=
  if '0' ≤ c ∧ c ≤ '9' then some (c.toNat - '0'.toNat) else none

/-- Fold a run of decimal digits into a number; fails on any non-digit. -/
def digitsToNat : Str → Nat → Option Nat
  | [], acc => some acc
  | c :: cs, acc =>
    match digitVal c with
    | some d => digitsToNat cs (acc * 10 + d)
    | none => none

/-- Strip leading and trailing whitespace, as Python's `int()` does
before parsing. -/
def stripWs (s : Str) : Str :=
  ((s.dropWhile Char.isWhitespace).reverse.dropWhile Char.isWhitespace).reverse

/-- Python's `int(s)` on a base-10 string: optional surrounding
whitespace, optional sign, then a non-empty digit run; `none` models
the `ValueError` raised on anything else. -/
def pyInt (s : Str) : Option Int :=
  match stripWs s with
  | '-' :: rest =>
    if rest = [] then none else (digitsToNat rest 0).map (fun n => -(n : Int))
  | '+' :: rest =>
    if rest = [] then none else (digitsToNat rest 0).map (fun n => (n : Int))
  | rest =>
    if rest = [] then none else (digitsToNat rest 0).map (fun n => (n : Int))

/-!
## `custom_filters.py`

`in_all_filter` relates each parent record to an association (the
example in the source: a contact's memberships, each carrying a list
id).  A record is modelled with its primary key `id` and the multiset
of associated values reached through the lookup prefix of the filter
definition (`definition[:-8]`); the field-name plumbing on the
definition string selects that association and is absorbed into the
`rel` projection.
-/

/-- A record as seen by `in_all_filter`: primary key plus the values
related through the filter's base field (e.g. the list ids of a
contact's memberships).  An empty `rel` is a record whose base field is
absent/null, which is what `filter(field=None)` selects. -/
structure RelRec where
  id : Nat
  rel : List Str
deriving DecidableEq

/-- The `custom_filters.in_all_filter` function: keep the records related to every
one of `values`.  Mirrors the source: if any value is the empty string
or the literal `null`, return the null-field filter at once; otherwise
keep records with at least one related value in `values` (the
`field__in` filter — records without a matching association row drop
out of the join) and then keep those whose number of matching
association rows (`annotate(count=Count('id'))`) equals `len(values)`. -/
def in_all_filter (data : List RelRec) (values : List Str) : List RelRec :=
  if values.any (fun v => v == ([] : Str) || v == ['n', 'u', 'l', 'l']) then
    data.filter (fun r => r.rel.isEmpty)
  else
    let joined := data.filter (fun r => r.rel.any (fun x => values.contains x))
    joined.filter (fun r => (r.rel.filter (fun x => values.contains x)).length == values.length)

/-- The per-record predicate that `in_all_filter` amounts to. -/
def inAllPred (values : List Str) (r : RelRec) : Bool :=
  if values.any (fun v => v == ([] : Str) || v == ['n', 'u', 'l', 'l']) then
    r.rel.isEmpty
  else
    (r.rel.filter (fun x => values.contains x)).length == values.length &&
      r.rel.any (fun x => values.contains x)

/-- A record as seen by `in_list_filter`: primary key plus the
list-valued field (a Django JSONField, a list of strings on the Python
level) selected by the filter definition's base field
(`definition[:-9]`). -/
structure ListRec where
  id : Nat
  vals : List Str
deriving DecidableEq

/-- Quote a string, as in the stored text form of a JSON list. -/
def quoteStr (s : Str) : Str := '"' :: (s ++ ['"'])

/-- The stored text of a JSON list field (at the SQL level a JSONField
is a text column); the `icontains` pre-filter of `in_list_filter` runs
against this text. -/
def jsonText (vals : List Str) : Str :=
  '[' :: (List.intercalate [',', ' '] (vals.map quoteStr) ++ [']'])

/-- The cheap first phase of `custom_filters.in_list_filter`: the
queryset-level `icontains` pre-filter, one `Q` per supplied value,
OR-ed together (an empty `values` list leaves the empty `Q()`, which
matches everything). -/
def in_list_prefilter (data : List ListRec) (values : List Str) : List ListRec :=
  if values.isEmpty then data
  else data.filter (fun r => values.any (fun t => icontains (jsonText r.vals) t))

/-- The `custom_filters.in_list_filter` function: pre-filter with `icontains`, then
walk the shrunken set and collect into `exclude` the ids of records
whose lower-cased stored list does not intersect the lower-cased
`values`; finally drop those ids (`data.exclude(id__in=exclude)`). -/
def in_list_filter (data : List ListRec) (values : List Str) : List ListRec :=
  let pre := in_list_prefilter data values
  let lowered := values.map lowerStr
  let excl :=
    (pre.filter (fun r => ((r.vals.map lowerStr).filter (fun x => lowered.contains x)).isEmpty)).map
      (fun r => r.id)
  pre.filter (fun r => !(excl.contains r.id))

/-!
## `handlers.py`: field input policy

`BaseHandler.may_input_field` and its `ModelHandler` override.  A
Django model's meta information is reduced to the names of the model's
(non-many-to-many) fields together with which of them is the primary
key; `_meta.get_field(name, many_to_many=False)` raises
`FieldDoesNotExist` for names outside that list.
-/

/-- The slice of Django model meta data that `may_input_field` and
`data_item` consult: the model's field names and its primary-key field. -/
structure PyModelMeta where
  fieldNames : List Str
  pkName : Str
deriving DecidableEq

namespace BaseHandler

/-- The base input policy `BaseHandler.may_input_field`: with a non-empty `fields`
declaration, accept exactly `set(fields) - set(exclude_in)`; with an
empty declaration, accept anything outside `exclude_in`. -/
def may_input_field (fields exclude_in : List Str) (field : Str) : Bool :=
  if !fields.isEmpty then fields.contains field && !exclude_in.contains field
  else !exclude_in.contains field

end BaseHandler

namespace ModelHandler

/-- The model input policy `ModelHandler.may_input_field`, exactly as written in the source:
the base policy's verdict is bound to `result`, but the following
`if not result: result` statement is a bare expression (not a
`return`), so the verdict is discarded; the method then answers from
the model meta data alone — `False` for the primary key and for names
that are not model fields, `True` for every other model field. -/
def may_input_field (fields exclude_in : List Str) (meta : PyModelMeta) (field : Str) : Bool :=
  let _result := BaseHandler.may_input_field fields exclude_in field
  if meta.fieldNames.contains field then !(field == meta.pkName)
  else false

end ModelHandler

/-!
## `handlers.py`: `ModelHandler.filter_data`, multi-field search branch

Records are modelled as total maps from field names to field values
(a Django model field lookup never fails for the declared search
fields).  The source builds a single `Q()` and only ever `|=`s clauses
onto it, one per (term, field) combination; since the empty `Q()` is
the identity of `|` and matches every row, the resulting filter is one
big disjunction — and it keeps everything when there are no
combinations at all.
-/

/-- A record as seen by the multi-field search: a total map from field
names to field values. -/
abbrev MRec := Str → Str

/-- The whitespace-separated search terms made from the supplied query
values: `' '.join(values).split()`. -/
def searchTerms (values : List Str) : List Str :=
  pySplitWs (List.intercalate [' '] values)

/-- The (term, field) combinations the nested loops of `filter_data`
iterate over. -/
def searchPairs (definition values : List Str) : List (Str × Str) :=
  (searchTerms values).flatMap (fun t => definition.map (fun f => (t, f)))

/-- The search branch of `ModelHandler.filter_data`, on a list-valued definition (the
multi-field search branch): one `icontains` clause per (term, field)
combination, all OR-ed onto an initially empty `Q()`; the empty
disjunction (no terms or no fields) matches every record. -/
def filter_data (data : List MRec) (definition values : List Str) : List MRec :=
  match searchPairs definition values with
  | [] => data
  | p :: ps =>
    data.filter (fun r => (p :: ps).any (fun tf => icontains (r tf.2) tf.1))

/-- What the specification says `filter_data` does on a list-valued
definition: AND across the per-term clauses, where each per-term clause
ORs the `icontains` predicate across the listed fields. -/
def filter_data_specified (data : List MRec) (definition values : List Str) : List MRec :=
  data.filter (fun r =>
    (searchTerms values).all (fun t => definition.any (fun f => icontains (r f) t)))

/-!
## `handlers.py`: slicing

`BaseHandler.response_slice_data` parses the slice query parameter,
puts the pre-slice length under `total` (unless a specialization already
did), and delegates to `slice_data`, which tries Python's extended
slicing `data[start:stop:step]` and falls back to the unmodified data on
any exception.  `ModelHandler.response_slice_data` wraps the base
method, computing `total` via the cheap `count()` for querysets up
front, and removes `total` again whenever the base method reports that
no slicing happened.

Python slice semantics follow CPython's `slice.indices` algorithm,
including negative indices, clamping, and negative steps; a `step` of
`0` is a `ValueError` (modelled as `none`, which `slice_data` turns
into its fallback).  Querysets additionally reject negative `start` or
`stop` (Django asserts "Negative indexing is not supported"), and
dictionary-like data is not sliceable at all.
-/

/-- The value a slice component holds after the parsing loop of
`response_slice_data`: `absent` for a missing or empty component (and
for a failed `int(None)`), a number for a numeric one, and the raw
string for a non-numeric non-empty one (`slice_arg or None`). -/
inductive SliceArg where
  | absent : SliceArg
  | num : Int → SliceArg
  | text : Str → SliceArg
deriving DecidableEq

/-- Whether the parsing loop left a raw (non-numeric, non-empty) string
in this slice component. -/
def SliceArg.isText : SliceArg → Bool
  | .text _ => true
  | _ => false

/-- View a slice component as a Python slice bound: `none` in the outer
`Option` marks a component that is not a legal bound at all (a raw
string, on which list slicing raises `TypeError`). -/
def SliceArg.toBound : SliceArg → Option (Option Int)
  | .absent => some none
  | .num n => some (some n)
  | .text _ => none

/-- One round of the parsing loop in `response_slice_data`: fetch
component `i` of the split parameter (`None` past the end), try
`int(...)`, and on failure keep the component itself unless it is falsy. -/
def parseSliceComponent (comp : Option Str) : SliceArg :=
  match comp with
  | none => SliceArg.absent
  | some s =>
    match pyInt s with
    | some n => SliceArg.num n
    | none => if s = [] then SliceArg.absent else SliceArg.text s

/-- The three slice components produced from the raw parameter string:
`slice.split(':')` followed by the parsing loop over indices 0, 1, 2. -/
def buildProcess (s : Str) : SliceArg × SliceArg × SliceArg :=
  let parts := splitColon s
  (parseSliceComponent (parts.get? 0),
   parseSliceComponent (parts.get? 1),
   parseSliceComponent (parts.get? 2),)

/-- Clamp a slice bound for a positive step into `[0, L]`
(CPython `slice.indices`): negative bounds count from the end. -/
def clampPos (L : Nat) (v : Option Int) (dflt : Nat) : Nat :=
  match v with
  | none => dflt
  | some i => if i < 0 then (i + (L : Int)).toNat else min i.toNat L

/-- Clamp a slice bound for a negative step into `[-1, L-1]` and shift
it by one so it lives in `[0, L]` (CPython `slice.indices`): `0` here
stands for the sentinel `-1`. -/
def clampNeg (L : Nat) (v : Option Int) (dflt : Nat) : Nat :=
  match v with
  | none => dflt
  | some i => if i < 0 then (i + (L : Int) + 1).toNat else min (i.toNat + 1) L

/-- The positions selected by `xs[start:stop:step]` on a sequence of
length `L`, following CPython's `slice.indices`; `none` models the
`ValueError` on a zero step. -/
def pySliceIdxs (L : Nat) (start stop step : Option Int) : Option (List Nat) :=
  let st := step.getD 1
  if st = 0 then none
  else if st > 0 then
    let stN := st.toNat
    let s := clampPos L start 0
    let e := clampPos L stop L
    some ((List.range ((e - s + stN - 1) / stN)).map (fun k => s + k * stN))
  else
    let stN := (-st).toNat
    let s1 := clampNeg L start L
    let e1 := clampNeg L stop 0
    some ((List.range ((s1 - e1 + stN - 1) / stN)).map (fun k => s1 - 1 - k * stN))

/-- Python's extended list slicing `xs[start:stop:step]`; `none` models
the `ValueError` on a zero step. -/
def pySliceList {α : Type} (xs : List α) (start stop step : Option Int) : Option (List α) :=
  (pySliceIdxs xs.length start stop step).map (fun idxs => idxs.filterMap (fun i => xs.get? i))

/-- The kinds of `data` values the slicing code can meet: plain Python
lists (full slice semantics), lazy Django querysets (sliceable, but
negative bounds hit Django's "Negative indexing is not supported"
assertion), and dictionary-like mappings (`len()` works, slicing
raises).  Single model instances, on which even `len()` raises, are
outside the modelled scope. -/
inductive DataKind where
  | pylist : DataKind
  | queryset : DataKind
  | dictlike : DataKind
deriving DecidableEq

/-- The `data` entry of a response envelope: its elements plus the
runtime kind the Python code branches on. -/
structure PyData (α : Type) where
  items : List α
  kind : DataKind
deriving DecidableEq

/-- A response envelope: the mandatory `data` entry and the optional
`total` entry (absent `total` is a missing dictionary key). -/
structure Response (α : Type) where
  data : PyData α
  total : Option Nat
deriving DecidableEq

/-- The `BaseHandler.slice_data` method: `try: return data[start:stop:step]
except: return data`.  Every failure path — a raw-string bound
(`TypeError`), a zero step (`ValueError`), Django's negative-bound
assertion on a queryset, unsliceable dictionary-like data — lands in
the bare `except` and yields the data unchanged. -/
def slice_data {α : Type} (d : PyData α) (a b c : SliceArg) : PyData α :=
  match a.toBound, b.toBound, c.toBound with
  | some s, some e, some st =>
    match d.kind with
    | .pylist =>
      match pySliceList d.items s e st with
      | some ys => { d with items := ys }
      | none => d
    | .queryset =>
      if s.getD 0 < 0 || e.getD 0 < 0 then d
      else
        match pySliceList d.items s e st with
        | some ys => { d with items := ys }
        | none => d
    | .dictlike => d
  | _, _, _ => d

/-- The `BaseHandler.response_slice_data` method: the slice query parameter
(`none` when absent) gates everything — a missing or empty parameter
returns `False` untouched; otherwise the pre-slice length is stored
under `total` (unless a specialization already put one there), the
parameter is split and parsed, and `slice_data`'s result replaces the
data.  Returns whether the parameter was acted upon. -/
def base_response_slice_data {α : Type} (qp : Option Str) (resp : Response α) :
    Bool × Response α :=
  match qp with
  | none => (false, resp)
  | some s =>
    if s.isEmpty then (false, resp)
    else
      let resp1 :=
        if resp.total.isNone then { resp with total := some resp.data.items.length }
        else resp
      let (a, b, c) := buildProcess s
      (true, { resp1 with data := slice_data resp1.data a b c })

/-- The `ModelHandler.response_slice_data` method: for queryset data with the
slice parameter present in the query string (even with an empty value),
`total` is set up front via the cheap `count()`; then the base method
runs, and if it reports that no slicing happened, `total` is deleted
from the envelope again. -/
def model_response_slice_data {α : Type} (qp : Option Str) (resp : Response α) :
    Bool × Response α :=
  let resp1 :=
    if resp.data.kind == DataKind.queryset && qp.isSome then
      { resp with total := some resp.data.items.length }
    else resp
  let (sliced, resp2) := base_response_slice_data qp resp1
  let resp3 :=
    if !sliced && resp2.total.isSome then { resp2 with total := none }
    else resp2
  (sliced, resp3)

/-!
## `handlers.py` / `resource.py`: request dispatch

`BaseHandler.request` receives every request.  Its first statement
rejects a `POST` aimed at an existing uniquely-addressed item; only
after that does it validate the body (when the request carries one) and
invoke the verb-mapped operation, and slicing runs last.  The outcome is
modelled as the failure raised (if any) together with the ordered list
of pipeline stages that were entered.
-/

/-- Modelled from the spec: the failure kinds of the `.utils` module,
which is not under `src/` (only its import and the `error_handler`
consumer in `resource.py` are).  Per the spec's error-response shapes, a
method-not-allowed failure carries the list of permitted verbs (read
back as `e.permitted_methods` by `Resource.error_handler`), and a
validation failure carries a message. -/
inductive PistonFailure where
  | methodNotAllowed : List String → PistonFailure
  | validationError : String → PistonFailure
deriving DecidableEq

/-- A pipeline stage of `BaseHandler.request` that was entered. -/
inductive Stage where
  | validated : Stage
  | operated : Stage
  | sliced : Stage
deriving DecidableEq

/-- The request-level state `BaseHandler.request` consults: the
upper-cased HTTP method, whether the request object has a `data`
attribute (a deserialized body), whether that body is empty (falsy),
and whether `data_item` found (and returned) a uniquely-addressed
item. -/
structure ReqCtx where
  method : String
  hasDataAttr : Bool
  bodyEmpty : Bool
  itemExists : Bool
deriving DecidableEq

namespace BaseHandler

/-- The `BaseHandler.request` dispatcher: first, a `POST` whose `data_item` is not
`None` raises `MethodNotAllowed('GET', 'PUT', 'DELETE')`; then the body
(if the request has one) is validated — `validate` raises on an empty
`POST` body; then the verb-mapped operation builds the response data,
and `response_slice_data` runs last.  The result pairs the failure
raised (if any) with the stages entered before the outcome. -/
def request (ctx : ReqCtx) : Option PistonFailure × List Stage :=
  if ctx.method == "POST" && ctx.itemExists then
    (some (PistonFailure.methodNotAllowed ["GET", "PUT", "DELETE"]), [])
  else if ctx.hasDataAttr then
    if ctx.bodyEmpty && ctx.method == "POST" then
      (some (PistonFailure.validationError "No data provided."), [Stage.validated])
    else
      (none, [Stage.validated, Stage.operated, Stage.sliced])
  else
    (none, [Stage.operated, Stage.sliced])

end BaseHandler

/-- The record used against claim C1: its `name` field holds `a`, every
other field is empty. -/
def nameARec : MRec := fun f => if f == ['n', 'a', 'm', 'e'] then ['a'] else []
/-- The model meta data used against claim C2: fields `a`, `b`, `c`,
with `a` the primary key. -/
def abcMeta : PyModelMeta := ⟨[['a'], ['b'], ['c']], ['a']⟩
/-- The data set used in the C5 witness: record 1 has no related
values, record 2 is related to `a`. -/
def c5data : List RelRec := [⟨1, []⟩, ⟨2, [['a']]⟩]
/-- The data set used in the C7 witness. -/
def c7data : List ListRec := [⟨1, [['a']]⟩, ⟨2, [['b']]⟩]
/-- The ten-element data set used against claim C3. -/
def tenNats : List Nat := [0, 1, 2, 3, 4, 5, 6, 7, 8, 9]

/-!
## Evaluation checks and helper lemmas
-/

example : pyInt ['2'] = some 2 := by decide
example : pyInt ['-', '3'] = some (-3) := by decide
example : pyInt ['a', 'b', 'c'] = none := by decide
example : pyInt [] = none := by decide
example : splitColon ['2', ':', '5'] = [['2'], ['5']] := by decide
example : pySplitWs ['a', ' ', 'b'] = [['a'], ['b']] := by decide
example : icontains ['X', 'a', 'Y'] ['x', 'a'] = true := by decide

example : pySliceList [0, 1, 2, 3, 4, 5, 6, 7, 8, 9] (some 2) (some 5) none = some [2, 3, 4] := by decide
example : pySliceList [0, 1, 2, 3, 4] none none (some (-1)) = some [4, 3, 2, 1, 0] := by decide
example : pySliceList [0, 1, 2, 3, 4] (some (-2)) none none = some [3, 4] := by decide
example : pySliceList [0, 1, 2, 3, 4] none (some 10) none = some [0, 1, 2, 3, 4] := by decide
example : pySliceList [0, 1, 2, 3, 4] none none (some 0) = none := by decide
example : pySliceList [0, 1, 2, 3, 4, 5] (some 1) (some 6) (some 2) = some [1, 3, 5] := by decide

theorem in_all_filter_eq_filter (data : List RelRec) (values : List Str) :
    in_all_filter data values = data.filter (inAllPred values) := by
  unfold in_all_filter inAllPred
  cases hc : values.any (fun v => v == ([] : Str) || v == ['n', 'u', 'l', 'l']) with
  | true => simp [hc]
  | false => simp [hc, List.filter_filter]

/-- Any raw-string slice component makes the slice expression raise
`TypeError`, which `slice_data`'s bare `except` turns into the
unmodified data. -/
theorem slice_data_text_arg {α : Type} (d : PyData α) (a b c : SliceArg)
    (h : (a.isText || b.isText || c.isText) = true) :
    slice_data d a b c = d := by
  cases a <;> cases b <;> cases c <;>
    first
      | rfl
      | simp [SliceArg.isText] at h

/-!
## Claim theorems
-/

/-- C1, counterexample: with the multi-field definition `[name]` and the
single supplied value `a b` (terms `a` and `b`), the code keeps the
record whose `name` is `a` even though the term `b` matches no listed
field, while the specified AND-of-per-term-clauses filter drops it.
The claim that the per-term clauses are ANDed is therefore false. -/
theorem C1_counterexample_or_not_and :
    filter_data [nameARec] [['n', 'a', 'm', 'e']] [['a', ' ', 'b']] = [nameARec] ∧
    filter_data_specified [nameARec] [['n', 'a', 'm', 'e']] [['a', ' ', 'b']] = [] := by
  exact ⟨rfl, rfl⟩

/-- C1, amended: the multi-field search ORs one `icontains` clause per
(term, field) combination onto a single initially-empty `Q()`, so a
record is kept iff it is in the data and either there are no
combinations at all (no terms or no listed fields) or at least one term
case-insensitively contains-matches at least one listed field — the
per-term clauses are not ANDed. -/
theorem C1_filter_data_single_disjunction (data : List MRec) (definition values : List Str)
    (r : MRec) :
    r ∈ filter_data data definition values ↔
      r ∈ data ∧ (searchPairs definition values = [] ∨
        ∃ p ∈ searchPairs definition values, icontains (r p.2) p.1 = true) := by
  unfold filter_data
  cases hp : searchPairs definition values with
  | nil => simp
  | cons p ps =>
    simp only [List.mem_filter, List.any_eq_true]
    constructor
    · rintro ⟨hmem, q, hq, hic⟩
      exact ⟨hmem, Or.inr ⟨q, hq, hic⟩⟩
    · rintro ⟨hmem, hrest⟩
      rcases hrest with hnil | ⟨q, hq, hic⟩
      · cases hnil
      · exact ⟨hmem, q, hq, hic⟩

/-- C2: with declared fields `('b',)` and an empty exclude-in set on the
`a`/`b`/`c` model, the base input policy rejects field `c`, yet
`ModelHandler.may_input_field` accepts it — the missing `return` before
the dead `if not result: result` statement discards the base verdict,
so the specialization does accept fields the base policy rejects (the
primary-key half of the claim does hold: `a` is refused). -/
theorem C2_base_verdict_discarded :
    ModelHandler.may_input_field [['b']] [] abcMeta ['c'] = true ∧
    BaseHandler.may_input_field [['b']] [] ['c'] = false ∧
    ModelHandler.may_input_field [['b']] [] abcMeta ['a'] = false := by
  decide

/-- C5: as soon as any supplied value is the empty string or the
literal `null`, `in_all_filter` is exactly the null-field filter — it
returns the records whose base field is absent, and every other
supplied value is ignored. -/
theorem C5_null_marker_filters_absent (data : List RelRec) (values : List Str)
    (h : values.any (fun v => v == ([] : Str) || v == ['n', 'u', 'l', 'l']) = true) :
    in_all_filter data values = data.filter (fun r => r.rel.isEmpty) := by
  simp only [in_all_filter, h, if_true]

/-- C5, witness: filtering `c5data` by the values `[a, ""]` keeps
exactly the record with an absent base field, ignoring the value `a`. -/
theorem C5_null_marker_witness :
    in_all_filter c5data [['a'], []] = [⟨1, []⟩] := by
  rw [C5_null_marker_filters_absent c5data [['a'], []] (by decide)]
  decide

/-- C6: filtering by a single value `v` and then filtering the result
by `[v]` again returns the same data set — `in_all_filter` amounts to a
per-record predicate, and filtering twice by one predicate is filtering
once. -/
theorem C6_in_all_idempotent (data : List RelRec) (v : Str) :
    in_all_filter (in_all_filter data [v]) [v] = in_all_filter data [v] := by
  rw [in_all_filter_eq_filter (in_all_filter data [v]), in_all_filter_eq_filter data,
    List.filter_filter]
  simp only [Bool.and_self]

/-- C7: the final result of `in_list_filter` is obtained from the
`icontains` pre-filter phase by a further `exclude`, so every record it
returns already survived the pre-filter: the pre-filter result set is a
superset of the exact-intersection result set. -/
theorem C7_prefilter_superset (data : List ListRec) (values : List Str) (r : ListRec)
    (h : r ∈ in_list_filter data values) : r ∈ in_list_prefilter data values := by
  simp only [in_list_filter] at h
  exact (List.mem_filter.mp h).1

/-- C7, witness: record 1 is in the final `in_list_filter` result for
values `[a]`, hence (by the superset theorem) in the pre-filter result. -/
theorem C7_prefilter_witness :
    (⟨1, [['a']]⟩ : ListRec) ∈ in_list_prefilter c7data [['a']] :=
  C7_prefilter_superset c7data [['a']] ⟨1, [['a']]⟩ (by decide)

/-- C9: a `POST` whose path constraints address an existing item
(`data_item` returns non-`None`) makes `BaseHandler.request` raise the
method-not-allowed failure carrying the permitted verbs `GET`, `PUT`,
`DELETE` before any other pipeline stage — validation and the
operation never run. -/
theorem C9_post_on_existing_item (ctx : ReqCtx)
    (h1 : ctx.method = "POST") (h2 : ctx.itemExists = true) :
    BaseHandler.request ctx =
      (some (PistonFailure.methodNotAllowed ["GET", "PUT", "DELETE"]), []) := by
  simp [BaseHandler.request, h1, h2]

/-- C9, witness: a concrete `POST` request with a body, aimed at an
existing item, is rejected with the method-not-allowed failure and an
empty stage trace. -/
theorem C9_witness :
    BaseHandler.request ⟨"POST", true, false, true⟩ =
      (some (PistonFailure.methodNotAllowed ["GET", "PUT", "DELETE"]), []) :=
  C9_post_on_existing_item ⟨"POST", true, false, true⟩ rfl rfl

/-- C3, counterexample: with the slice parameter `abc:5` on a ten-item
list, the code returns the whole list (the non-numeric component is
passed through and the slice expression's failure falls back to the
unmodified data), whereas slicing with the component treated as absent
(`None:5`) would return the first five items.  The claim that the
result equals slicing with the component treated as absent is false. -/
theorem C3_counterexample_not_treated_absent :
    (base_response_slice_data (some ['a', 'b', 'c', ':', '5'])
        ⟨⟨tenNats, DataKind.pylist⟩, none⟩).2.data.items = tenNats ∧
    pySliceList tenNats none (some 5) none = some [0, 1, 2, 3, 4] := by
  decide

/-- C3, amended: a slice parameter in which some component is
non-numeric and non-empty never raises — the component is passed
through as a raw string, the slice expression fails, and the bare
`except` leaves the data unmodified (the full data set, not the slice
with that component treated as absent); the call still reports `True`
and stores the pre-slice length under `total`. -/
theorem C3_nonnumeric_component_full_fallback {α : Type} (xs : List α) (p : Str)
    (h : ((buildProcess p).1.isText || (buildProcess p).2.1.isText ||
      (buildProcess p).2.2.isText) = true) :
    base_response_slice_data (some p) ⟨⟨xs, DataKind.pylist⟩, none⟩ =
      (true, ⟨⟨xs, DataKind.pylist⟩, some xs.length⟩) := by
  cases p with
  | nil => exact absurd h (by decide)
  | cons c0 cs =>
    unfold base_response_slice_data
    rcases hbp : buildProcess (c0 :: cs) with ⟨a, bc⟩
    rcases bc with ⟨b, c⟩
    rw [hbp] at h
    simp only [List.isEmpty_cons, Option.isNone_none, if_true, hbp]
    rw [slice_data_text_arg _ a b c h]
    rfl

/-- C3, witness for the amended theorem: the parameter `abc:5` on a
three-item list returns `True`, the data unmodified, and `total = 3`. -/
theorem C3_nonnumeric_witness :
    base_response_slice_data (some ['a', 'b', 'c', ':', '5'])
        ⟨⟨[10, 20, 30], DataKind.pylist⟩, none⟩ =
      (true, ⟨⟨[10, 20, 30], DataKind.pylist⟩, some 3⟩) :=
  C3_nonnumeric_component_full_fallback [10, 20, 30] ['a', 'b', 'c', ':', '5'] (by decide)

/-- C4, counterexample: a queryset (Django refuses negative slice
bounds) with the slice parameter `-2:` — the wrapper stores `total` via
`count()`, the underlying slice operation fails and the data is left
unmodified, yet `response_slice_data` reports `True`, so `total` is
NOT removed: after the call the envelope still holds `total = 3`.  The
claim that a failed slice leaves the envelope without the `total` it
added is false. -/
theorem C4_counterexample_total_kept_on_failure :
    model_response_slice_data (some ['-', '2', ':'])
        ⟨⟨[10, 20, 30], DataKind.queryset⟩, none⟩ =
      (true, ⟨⟨[10, 20, 30], DataKind.queryset⟩, some 3⟩) := by
  decide

/-- C4, amended: on an envelope without a pre-existing `total`,
`ModelHandler.response_slice_data` returns `False` exactly when the
slice parameter is absent or empty, and then leaves the envelope
unchanged (`total` deleted again if the queryset shortcut added it);
whenever the parameter is non-empty it returns `True` and the envelope
holds `total` = the pre-slice count — also when the underlying slice
operation fails, in which case the data is left unmodified but `total`
remains. -/
theorem C4_slice_total_frame (α : Type) (d : PyData α) (qp : Option Str) :
    ((model_response_slice_data qp ⟨d, none⟩).1 = false ↔ (qp = none ∨ qp = some [])) ∧
    ((model_response_slice_data qp ⟨d, none⟩).1 = false →
      (model_response_slice_data qp ⟨d, none⟩).2 = ⟨d, none⟩) ∧
    ((model_response_slice_data qp ⟨d, none⟩).1 = true →
      (model_response_slice_data qp ⟨d, none⟩).2.total = some d.items.length) := by
  rcases qp with _ | ⟨_ | ⟨c0, cs⟩⟩ <;>
    cases hk : d.kind == DataKind.queryset <;>
      simp [model_response_slice_data, base_response_slice_data, hk]

/-- C4, witness for the amended theorem: the parameter `0:2` on a
three-element queryset returns `True` and leaves `total = 3` in the
envelope. -/
theorem C4_slice_total_witness :
    (model_response_slice_data (some ['0', ':', '2'])
        ⟨⟨[10, 20, 30], DataKind.queryset⟩, none⟩).2.total = some 3 :=
  (C4_slice_total_frame Nat ⟨[10, 20, 30], DataKind.queryset⟩
    (some ['0', ':', '2'])).2.2 (by decide)

/-- C8: the slice parameter `2:5` on any ten-item data set returns the
items at zero-indexed positions 2, 3 and 4 (a half-open interval), with
`total = 10` stored in the envelope. -/
theorem C8_slice_2_5_of_ten {α : Type} (a b c d e f g h i j : α) :
    base_response_slice_data (some ['2', ':', '5'])
        ⟨⟨[a, b, c, d, e, f, g, h, i, j], DataKind.pylist⟩, none⟩ =
      (true, ⟨⟨[c, d, e], DataKind.pylist⟩, some 10⟩) := by
  have hL : ([a, b, c, d, e, f, g, h, i, j] : List α).length = 10 := by simp
  have hps : pySliceList [a, b, c, d, e, f, g, h, i, j] (some 2) (some 5) none =
      some [c, d, e] := by
    unfold pySliceList
    rw [hL]
    rfl
  have hbp : buildProcess ['2', ':', '5'] = (SliceArg.num 2, SliceArg.num 5, SliceArg.absent) :=
    rfl
  simp [base_response_slice_data, slice_data, SliceArg.toBound, hL, hbp, hps]

/-- C10: a slice query parameter that is present but has an empty
(falsy) value behaves exactly like an absent parameter: the base
handler returns `False` leaving the envelope untouched, and the model
handler returns `False` with the data unmodified and no `total` left in
the envelope (the queryset shortcut's `total` is deleted again). -/
theorem C10_empty_slice_param_noop (α : Type) (resp : Response α) (d : PyData α) :
    base_response_slice_data (some []) resp = (false, resp) ∧
    model_response_slice_data (some []) ⟨d, none⟩ = (false, ⟨d, none⟩) := by
  constructor
  · rfl
  · cases hk : d.kind == DataKind.queryset <;>
      simp [model_response_slice_data, base_response_slice_data, hk]
